import Mathlib

/-!
Verification development for the FargateAutomation repository: a shallow
embedding of the decision logic of the two Lambda handlers
(smart-handler/lambda_function.py and restart-executor/lambda_function.py)
together with theorems settling the specification claims about them.

External collaborators (AWS SSM, EventBridge, ECS, the webhook sink and the
ISO-8601 parser) are modelled as explicit parameters or oracles; every side
effect performed against an external service is recorded in an action trace.
-/

namespace PyTime

/-- Civil datetime at second resolution with an optional fixed UTC offset in
seconds, modelling the Python datetime values handled by the two Lambdas.
tz = none models a naive datetime; tz = some off models tzinfo = timezone
with utcoffset off seconds. -/
structure Dt where
  year : Int
  month : Nat
  day : Nat
  hour : Nat
  minute : Nat
  second : Nat
  tz : Option Int
deriving DecidableEq

/-- Day count since 1970-01-01 of a proleptic-Gregorian civil date (the
standard days_from_civil algorithm), modelling the date arithmetic that
underlies Python datetime ordering. -/
def daysFromCivil (y : Int) (m d : Nat) : Int :=
  let yy := if m ≤ 2 then y - 1 else y
  let era := yy.ediv 400
  let yoe := (yy - era * 400).toNat
  let mp := (m + 9) % 12
  let doy := (153 * mp + 2) / 5 + d - 1
  let doe := yoe * 365 + yoe / 4 - yoe / 100 + doy
  era * 146097 + (doe : Int) - 719468

/-- Inverse calendar conversion (the standard civil_from_days algorithm),
used to model datetime.astimezone re-expressing an instant in another zone. -/
def civilFromDays (z : Int) : Int × Nat × Nat :=
  let zz := z + 719468
  let era := zz.ediv 146097
  let doe := (zz - era * 146097).toNat
  let yoe := (doe - doe / 1460 + doe / 36524 - doe / 146096) / 365
  let doy := doe - (365 * yoe + yoe / 4 - yoe / 100)
  let mp := (5 * doy + 2) / 153
  let dd := doy - (153 * mp + 2) / 5 + 1
  let mm := if mp < 10 then mp + 3 else mp - 9
  (((yoe : Int) + era * 400) + (if mm ≤ 2 then 1 else 0), mm, dd)

/-- Seconds since the epoch of the civil (wall-clock) reading of a datetime,
ignoring its offset. -/
def Dt.civilSecs (d : Dt) : Int :=
  daysFromCivil d.year d.month d.day * 86400 +
    (d.hour * 3600 + d.minute * 60 + d.second : Nat)

/-- The absolute instant of a datetime: civil seconds minus the UTC offset.
Python compares timezone-aware datetimes by exactly this quantity; in the
handlers it is only ever applied after every operand has been made aware. -/
def toInstant (d : Dt) : Int := d.civilSecs - d.tz.getD 0

/-- Model of datetime.astimezone(tz): re-express the same absolute instant
with the given fixed UTC offset (seconds). -/
def astimezone (d : Dt) (off : Int) : Dt :=
  let t := toInstant d + off
  let days := t.ediv 86400
  let sod := (t.emod 86400).toNat
  let c := civilFromDays days
  { year := c.1, month := c.2.1, day := c.2.2,
    hour := sod / 3600, minute := sod % 3600 / 60, second := sod % 60,
    tz := some off }

end PyTime

namespace smart_handler

open PyTime

/-- UTC offset of China Standard Time in seconds
(timezone(timedelta(hours=8)) in the source). -/
def chinaTz : Int := 28800

/-- Embeds lines 140-143 and 160-163 of smart-handler/lambda_function.py:
a naive datetime is made aware by attaching UTC
(d.replace(tzinfo=timezone.utc)); an aware datetime is left unchanged. -/
def ensure_tzaware (d : Dt) : Dt :=
  if d.tz.isNone then { d with tz := some 0 } else d

/-- Embeds lines 186-200 of smart-handler/lambda_function.py
(get_spring_festival_dates, Parameter Store branch): a naive datetime parsed
from the stored value is assumed to be China time (UTC+8) and every value is
then converted to UTC with astimezone. -/
def spring_store_normalize (d : Dt) : Dt :=
  let d1 := if d.tz.isNone then { d with tz := some chinaTz } else d
  astimezone d1 0

/-- Embeds get_default_spring_festival_dates (lines 244-264): the built-in
table of spring-festival long holidays in China time, with the fixed
Feb 1 - Feb 8 fallback for unknown years, converted to UTC. -/
def get_default_spring_festival_dates (year : Int) : Dt × Dt :=
  let china := some chinaTz
  let table : List (Int × (Dt × Dt)) := [
    (2024, (⟨2024, 2, 10, 0, 0, 0, china⟩, ⟨2024, 2, 17, 23, 59, 59, china⟩)),
    (2025, (⟨2025, 1, 29, 0, 0, 0, china⟩, ⟨2025, 2, 5, 23, 59, 59, china⟩)),
    (2026, (⟨2026, 2, 17, 0, 0, 0, china⟩, ⟨2026, 2, 24, 23, 59, 59, china⟩)),
    (2027, (⟨2027, 2, 6, 0, 0, 0, china⟩, ⟨2027, 2, 13, 23, 59, 59, china⟩)),
    (2028, (⟨2028, 1, 26, 0, 0, 0, china⟩, ⟨2028, 2, 2, 23, 59, 59, china⟩)),
    (2029, (⟨2029, 2, 13, 0, 0, 0, china⟩, ⟨2029, 2, 20, 23, 59, 59, china⟩)),
    (2030, (⟨2030, 2, 3, 0, 0, 0, china⟩, ⟨2030, 2, 10, 23, 59, 59, china⟩))]
  let p := match table.lookup year with
    | some v => v
    | none => (⟨year, 2, 1, 0, 0, 0, china⟩, ⟨year, 2, 8, 23, 59, 59, china⟩)
  (astimezone p.1 0, astimezone p.2 0)

/-- The blackout catalogue built inside check_holiday_conflict (lines
145-155): the national-day holiday Oct 1 - Oct 8 23:59:59 China time of the
given year, converted to UTC, followed by the spring-festival interval
returned by get_spring_festival_dates (passed in as a function, since its
value may come from the external Parameter Store). -/
def holiday_catalogue (year : Int) (spring : Int → Dt × Dt) : List (Dt × Dt) :=
  [(astimezone ⟨year, 10, 1, 0, 0, 0, some chinaTz⟩ 0,
    astimezone ⟨year, 10, 8, 23, 59, 59, some chinaTz⟩ 0),
   spring year]

/-- Embeds check_holiday_conflict (lines 135-168): make the window bounds
aware (naive bounds get UTC attached), build the holiday catalogue keyed by
the year of the window start, make each holiday bound aware the same way,
and return true iff the window overlaps some catalogue interval under
maintenance_start <= holiday_end and maintenance_end >= holiday_start. -/
def check_holiday_conflict (maintenance_start maintenance_end : Dt)
    (spring : Int → Dt × Dt) : Bool :=
  let year := maintenance_start.year
  let ms := ensure_tzaware maintenance_start
  let me := ensure_tzaware maintenance_end
  (holiday_catalogue year spring).any fun hb =>
    let hs := ensure_tzaware hb.1
    let he := ensure_tzaware hb.2
    decide (toInstant ms ≤ toInstant he ∧ toInstant hs ≤ toInstant me)

/-- Modelled from the spec, for comparison with the code in claim C2: the
variant of check_holiday_conflict in which every instant lacking explicit
timezone information is assumed to be in the fixed local civil zone UTC+8
(China time) before comparison, as section 4.1 of the spec prescribes. -/
def ensure_tzaware_china (d : Dt) : Dt :=
  if d.tz.isNone then { d with tz := some chinaTz } else d

/-- Modelled from the spec, for comparison with the code in claim C2: the
conflict check under the UTC+8 assumption for naive instants. -/
def check_holiday_conflict_china (maintenance_start maintenance_end : Dt)
    (spring : Int → Dt × Dt) : Bool :=
  let year := maintenance_start.year
  let ms := ensure_tzaware_china maintenance_start
  let me := ensure_tzaware_china maintenance_end
  (holiday_catalogue year spring).any fun hb =>
    let hs := ensure_tzaware_china hb.1
    let he := ensure_tzaware_china hb.2
    decide (toInstant ms ≤ toInstant he ∧ toInstant hs ≤ toInstant me)

end smart_handler

namespace smart_handler

/-- A UTC wall-clock value at microsecond resolution, with the date abstracted
to a linear day index: models the datetime.now(timezone.utc) value flowing
through calculate_next_4am, where only replace(hour/minute/second/microsecond)
and adding timedelta(days=1) are applied to the date part. -/
structure Clock where
  day : Int
  hour : Nat
  minute : Nat
  second : Nat
  micro : Nat
deriving DecidableEq

/-- Microseconds since the epoch of a Clock value. -/
def Clock.micros (c : Clock) : Int :=
  c.day * 86400000000 +
    (c.hour * 3600000000 + c.minute * 60000000 + c.second * 1000000 + c.micro : Nat)

/-- Seconds since the epoch of a Clock value, truncating the microseconds:
models int(restart_time.timestamp()) in create_restart_schedule. -/
def Clock.epochSecs (c : Clock) : Int :=
  c.day * 86400 + (c.hour * 3600 + c.minute * 60 + c.second : Nat)

/-- Embeds calculate_next_4am (lines 266-277): take today at 04:00:00.000000
(now.replace(hour=4, minute=0, second=0, microsecond=0)); if the current hour
is at or past 4, or the current hour is 3 with minute at least 50, push the
result to the next day (+ timedelta(days=1)). -/
def calculate_next_4am (now : Clock) : Clock :=
  let next_4am : Clock := { now with hour := 4, minute := 0, second := 0, micro := 0 }
  if 4 ≤ now.hour ∨ (now.hour = 3 ∧ 50 ≤ now.minute) then
    { next_4am with day := next_4am.day + 1 }
  else
    next_4am

end smart_handler

/-!
Model of hashlib.md5 over byte lists (each byte a Nat below 256), with 32-bit
words as Nat reduced modulo 2 ^ 32, used by create_restart_schedule to derive
the 8-hex-character fragment of the EventBridge rule name.
-/

namespace MD5

/-- The 64 per-round sine-derived constants of MD5. -/
def K : List Nat := [
  0xd76aa478, 0xe8c7b756, 0x242070db, 0xc1bdceee,
  0xf57c0faf, 0x4787c62a, 0xa8304613, 0xfd469501,
  0x698098d8, 0x8b44f7af, 0xffff5bb1, 0x895cd7be,
  0x6b901122, 0xfd987193, 0xa679438e, 0x49b40821,
  0xf61e2562, 0xc040b340, 0x265e5a51, 0xe9b6c7aa,
  0xd62f105d, 0x02441453, 0xd8a1e681, 0xe7d3fbc8,
  0x21e1cde6, 0xc33707d6, 0xf4d50d87, 0x455a14ed,
  0xa9e3e905, 0xfcefa3f8, 0x676f02d9, 0x8d2a4c8a,
  0xfffa3942, 0x8771f681, 0x6d9d6122, 0xfde5380c,
  0xa4beea44, 0x4bdecfa9, 0xf6bb4b60, 0xbebfbc70,
  0x289b7ec6, 0xeaa127fa, 0xd4ef3085, 0x04881d05,
  0xd9d4d039, 0xe6db99e5, 0x1fa27cf8, 0xc4ac5665,
  0xf4292244, 0x432aff97, 0xab9423a7, 0xfc93a039,
  0x655b59c3, 0x8f0ccc92, 0xffeff47d, 0x85845dd1,
  0x6fa87e4f, 0xfe2ce6e0, 0xa3014314, 0x4e0811a1,
  0xf7537e82, 0xbd3af235, 0x2ad7d2bb, 0xeb86d391]

/-- The 64 per-round left-rotation amounts of MD5. -/
def S : List Nat := [
  7, 12, 17, 22, 7, 12, 17, 22, 7, 12, 17, 22, 7, 12, 17, 22,
  5, 9, 14, 20, 5, 9, 14, 20, 5, 9, 14, 20, 5, 9, 14, 20,
  4, 11, 16, 23, 4, 11, 16, 23, 4, 11, 16, 23, 4, 11, 16, 23,
  6, 10, 15, 21, 6, 10, 15, 21, 6, 10, 15, 21, 6, 10, 15, 21]

/-- Left rotation of a 32-bit word (a Nat below 2 ^ 32) by s places. -/
def rotl32 (x s : Nat) : Nat :=
  (x % 2 ^ (32 - s)) * 2 ^ s + x / 2 ^ (32 - s)

/-- Bitwise complement of a 32-bit word. -/
def bnot32 (x : Nat) : Nat := 4294967295 - x % 4294967296

/-- The running four-word state of the MD5 compression function. -/
structure St where
  a : Nat
  b : Nat
  c : Nat
  d : Nat

/-- Decode a byte list into little-endian 32-bit words, four bytes each. -/
def leWords : List Nat → List Nat
  | b0 :: b1 :: b2 :: b3 :: rest =>
      (b0 + 256 * b1 + 65536 * b2 + 16777216 * b3) :: leWords rest
  | _ => []

/-- One MD5 round: the round function and message index are selected by the
round number i, then the state rotates. -/
def round (M : List Nat) (st : St) (i : Nat) : St :=
  let fg : Nat × Nat :=
    if i < 16 then
      ((st.b.land st.c).lor ((bnot32 st.b).land st.d), i)
    else if i < 32 then
      ((st.d.land st.b).lor ((bnot32 st.d).land st.c), (5 * i + 1) % 16)
    else if i < 48 then
      ((st.b.xor st.c).xor st.d, (3 * i + 5) % 16)
    else
      (st.c.xor (st.b.lor (bnot32 st.d)), (7 * i) % 16)
  let f := (fg.1 + st.a + K.getD i 0 + M.getD fg.2 0) % 4294967296
  { a := st.d, d := st.c, c := st.b,
    b := (st.b + rotl32 f (S.getD i 0)) % 4294967296 }

/-- Little-endian 8-byte rendering of the 64-bit message bit length. -/
def le8 (n : Nat) : List Nat :=
  [n % 256, n / 256 % 256, n / 65536 % 256, n / 16777216 % 256,
   n / 4294967296 % 256, n / 1099511627776 % 256,
   n / 281474976710656 % 256, n / 72057594037927936 % 256]

/-- MD5 padding: a 0x80 byte, zeros up to 56 mod 64, then the bit length. -/
def pad (msg : List Nat) : List Nat :=
  msg ++ [128] ++ List.replicate ((119 - msg.length % 64) % 64) 0 ++
    le8 (8 * msg.length)

/-- Split a byte list into 64-byte chunks. -/
def chunks64 (l : List Nat) : List (List Nat) :=
  if h : l = [] then [] else l.take 64 :: chunks64 (l.drop 64)
termination_by l.length
decreasing_by
  simp only [List.length_drop]
  have : 0 < l.length := List.length_pos.mpr h
  omega

/-- Compress one 64-byte chunk into the running state. -/
def chunk (st : St) (c : List Nat) : St :=
  let M := leWords c
  let r := (List.range 64).foldl (round M) st
  ⟨(st.a + r.a) % 4294967296, (st.b + r.b) % 4294967296,
   (st.c + r.c) % 4294967296, (st.d + r.d) % 4294967296⟩

/-- The fixed MD5 initial state. -/
def init : St := ⟨0x67452301, 0xefcdab89, 0x98badcfe, 0x10325476⟩

/-- Little-endian 4-byte rendering of a 32-bit word. -/
def w32le (w : Nat) : List Nat :=
  [w % 256, w / 256 % 256, w / 65536 % 256, w / 16777216 % 256]

/-- The 16-byte MD5 digest of a byte list. -/
def digest (msg : List Nat) : List Nat :=
  let st := (chunks64 (pad msg)).foldl chunk init
  w32le st.a ++ w32le st.b ++ w32le st.c ++ w32le st.d

/-- Lower-case hexadecimal digit character for a value below 16. -/
def hexDigitChar (n : Nat) : Char :=
  if n < 10 then Char.ofNat (48 + n) else Char.ofNat (87 + n)

/-- Two lower-case hex characters of one byte, high nibble first. -/
def byteHex (b : Nat) : List Char :=
  [hexDigitChar (b / 16 % 16), hexDigitChar (b % 16)]

/-- The character list of hashlib.md5(msg).hexdigest(). -/
def hexChars (msg : List Nat) : List Char := (digest msg).flatMap byteHex

end MD5

/-- UTF-8 encoding of one character codepoint, modelling Python str.encode(). -/
def utf8Char (c : Char) : List Nat :=
  let n := c.toNat
  if n < 128 then [n]
  else if n < 2048 then [192 + n / 64, 128 + n % 64]
  else if n < 65536 then [224 + n / 4096, 128 + n / 64 % 64, 128 + n % 64]
  else [240 + n / 262144, 128 + n / 4096 % 64, 128 + n / 64 % 64, 128 + n % 64]

/-- UTF-8 byte list of a string, modelling Python str.encode(). -/
def utf8Bytes (s : String) : List Nat := s.toList.flatMap utf8Char

/-- Decimal digit characters of a positive Nat, most significant first
(empty for 0); recursion peels the last digit. -/
def natDigits (n : Nat) : List Char :=
  if n = 0 then [] else natDigits (n / 10) ++ [MD5.hexDigitChar (n % 10)]
termination_by n
decreasing_by exact Nat.div_lt_self (Nat.pos_of_ne_zero (by assumption)) (by omega)

/-- Decimal rendering of a Nat, modelling Python str on a non-negative int. -/
def natChars (n : Nat) : List Char := if n = 0 then ['0'] else natDigits n

/-- Decimal rendering of an Int, modelling Python str inside an f-string. -/
def intChars : Int → List Char
  | Int.ofNat m => natChars m
  | Int.negSucc m => '-' :: natChars (m + 1)

namespace smart_handler

/-- Embeds lines 282-287 of create_restart_schedule as character data: the
rule name is the fixed namespace tag ecs-restart-, the first 8 characters of
the MD5 hex digest of the UTF-8 encoded resource ARN, a dash, and the decimal
epoch-second timestamp of the restart time. -/
def rule_name_chars (resource_arn : String) (timestamp : Int) : List Char :=
  "ecs-restart-".toList ++ (MD5.hexChars (utf8Bytes resource_arn)).take 8 ++
    ['-'] ++ intChars timestamp

/-- The EventBridge rule name string of create_restart_schedule. -/
def rule_name_for (resource_arn : String) (timestamp : Int) : String :=
  String.mk (rule_name_chars resource_arn timestamp)

end smart_handler

/-!
Character-list models of the Python str operations used by the handlers.
Working on List Char keeps every operation structurally recursive, so concrete
instances reduce inside the kernel.
-/

/-- Python s.split(sep) for a one-character separator: splits at every
occurrence, keeping empty fields, and yields one field even for the empty
string. -/
def splitOnChar (sep : Char) : List Char → List (List Char)
  | [] => [[]]
  | c :: rest =>
    let r := splitOnChar sep rest
    if c = sep then [] :: r
    else
      match r with
      | [] => [[c]]
      | h :: t => (c :: h) :: t

/-- Python pat in s (substring containment). -/
def containsSub (pat : List Char) : List Char → Bool
  | [] => pat.isEmpty
  | c :: rest => pat.isPrefixOf (c :: rest) || containsSub pat rest

/-- Python str.lower restricted to ASCII, which is all the handlers feed it. -/
def lowerChars (l : List Char) : List Char := l.map Char.toLower

/-- Python str.strip: drop ASCII whitespace from both ends. -/
def stripChars (l : List Char) : List Char :=
  let ws : List Char := [' ', '\t', '\n', '\r', '\x0b', '\x0c']
  ((l.dropWhile ws.contains).reverse.dropWhile ws.contains).reverse

/-- Python s.replace(pat, rep) for a one-character pattern. -/
def replaceChar (pat : Char) (rep : List Char) : List Char → List Char
  | [] => []
  | c :: rest => (if c = pat then rep else [c]) ++ replaceChar pat rep rest

namespace smart_handler

/-- Embeds parse_ecs_resource_info (lines 345-387). The task branch calls the
external ECS lookup get_service_from_task_arn, passed in as taskLookup. An
ARN with fewer than six colon segments raises IndexError in the source at
entity_value.split(chr 58)[5]; the catch-all except turns that into the
sentinel, modelled by the none branch. -/
def parse_ecs_resource_info (taskLookup : String → String → String)
    (entity_value : String) : String × String :=
  let ev := entity_value.toList
  if "arn:aws".toList.isPrefixOf ev then
    let parts := splitOnChar '/' ev
    if 3 ≤ parts.length then
      match (splitOnChar ':' ev)[5]? with
      | none => ("unknown-cluster", "unknown-service")
      | some seg =>
        let resource_type := (splitOnChar '/' seg).headD []
        let cluster_name := String.mk (parts.getD (parts.length - 2) [])
        let service_name :=
          if resource_type = "service".toList then String.mk (parts.getLastD [])
          else if resource_type = "task".toList then
            taskLookup entity_value cluster_name
          else "unknown-service"
        (cluster_name, service_name)
    else ("unknown-cluster", "unknown-service")
  else if ev.contains '|' then
    let parts := splitOnChar '|' ev
    if parts.length = 2 then
      (String.mk (stripChars (parts.getD 0 [])),
       String.mk (stripChars (parts.getD 1 [])))
    else ("unknown-cluster", "unknown-service")
  else ("unknown-cluster", "unknown-service")

/-- Modelled from the spec (section 4.4, shape 1), for stating claim C7: the
structured-identifier shape, a delimited identifier with an embedded
resource-type segment: the arn:aws lead-in, at least three slash-delimited
segments, and at least six colon-delimited segments so the type segment
exists. -/
def matchesStructured (s : String) : Prop :=
  "arn:aws".toList.isPrefixOf s.toList = true ∧
    3 ≤ (splitOnChar '/' s.toList).length ∧
    6 ≤ (splitOnChar ':' s.toList).length

instance (s : String) : Decidable (matchesStructured s) := by
  unfold matchesStructured; infer_instance

/-- Modelled from the spec (section 4.4, shape 2), for stating claim C7: the
pair-form identifier shape, splitting on the bar into exactly two fields. -/
def matchesPair (s : String) : Prop :=
  (splitOnChar '|' s.toList).length = 2

instance (s : String) : Decidable (matchesPair s) := by
  unfold matchesPair; infer_instance

end smart_handler

/-- Python truthiness of an optional string event field: absent and empty
both count as false, as in the guards not all([...]) of the Executor and
not start_time_str or not end_time_str of the Planner. -/
def truthy : Option String → Bool
  | none => false
  | some s => !(s == "")

namespace restart_executor

/-- The inbound Executor event (restart-executor/lambda_function.py lines
12-17): each field read with event.get, so absent fields are none;
restart_reason and test_mode have defaults applied at the read site. -/
structure ExecEvent where
  resource_id : Option String
  cluster_name : Option String
  service_name : Option String
  rule_name : Option String
  restart_reason : Option String
  test_mode : Bool
deriving DecidableEq

/-- Outcome oracle for the external AWS calls the Executor makes: whether
ecs.update_service, events.remove_targets and events.delete_rule succeed.
A false entry models the call raising. -/
structure ExecEnv where
  restartOk : Bool
  removeTargetsOk : Bool
  deleteRuleOk : Bool
deriving DecidableEq

/-- One externally visible call of the Executor, in program order. -/
inductive EAction where
  | restartCall (cluster service : String)
  | removeTargets (rule : String)
  | deleteRule (rule : String)
  | notify (status : String) (testMode : Bool)
deriving DecidableEq

/-- The Executor response: the statusCode of the returned dict, and the
status field of the result object embedded in a 200 body (none on the 500
error body). -/
structure EResp where
  statusCode : Nat
  resultStatus : Option String
deriving DecidableEq

/-- Embeds cleanup_rule (lines 114-132): remove_targets is attempted first;
if it raises, delete_rule is not reached; every failure is caught inside the
function, so only the attempted calls are observable. -/
def cleanup_rule (env : ExecEnv) (rule : String) : List EAction :=
  if env.removeTargetsOk then
    [EAction.removeTargets rule, EAction.deleteRule rule]
  else
    [EAction.removeTargets rule]

/-- Embeds the Executor lambda_handler (lines 6-84). Validation failure
(any of the three required fields absent or empty) raises ValueError, landing
in the catch-all handler: one FAILED notification and a 500 response with no
restart attempted. In test mode the restart and the rule cleanup are both
skipped and the result object is test_success. Otherwise the restart is
attempted; if it raises, the catch-all path notifies FAILED with 500 and the
cleanup is never reached; if it succeeds, cleanup runs only for a truthy
rule_name, then the single outcome notification carries SUCCESS because the
result status is in [success, test_success]. -/
def lambda_handler (event : ExecEvent) (env : ExecEnv) : EResp × List EAction :=
  if !(truthy event.resource_id && truthy event.cluster_name &&
       truthy event.service_name) then
    (⟨500, none⟩, [EAction.notify "FAILED" event.test_mode])
  else
    let cluster := event.cluster_name.getD ""
    let service := event.service_name.getD ""
    if event.test_mode then
      let result := "test_success"
      let status := if result == "success" || result == "test_success"
        then "SUCCESS" else "FAILED"
      (⟨200, some result⟩, [EAction.notify status true])
    else
      if env.restartOk then
        let result := "success"
        let cleanupActs :=
          if truthy event.rule_name then
            cleanup_rule env (event.rule_name.getD "")
          else []
        let status := if result == "success" || result == "test_success"
          then "SUCCESS" else "FAILED"
        (⟨200, some result⟩,
         EAction.restartCall cluster service :: cleanupActs ++
           [EAction.notify status false])
      else
        (⟨500, none⟩,
         [EAction.restartCall cluster service, EAction.notify "FAILED" false])

/-- The notification actions of a trace, in order. -/
def notificationsOf (tr : List EAction) : List EAction :=
  tr.filter fun a => match a with
    | EAction.notify _ _ => true
    | _ => false

end restart_executor

namespace smart_handler

open PyTime

/-- The inbound Planner event (smart-handler/lambda_function.py lines 17-22,
62): the startTime and endTime strings of event detail (absent fields are
none), the entityValue strings of the affected entities, and the test flag. -/
structure PlannerEvent where
  startTime : Option String
  endTime : Option String
  affectedEntities : List String
  test_mode : Bool

/-- Oracle for everything external the Planner touches: the ISO-8601 parser
(none models datetime.fromisoformat raising ValueError), the spring-festival
resolution (Parameter Store with fallback), the ECS task-to-service lookup,
the success of events.put_rule and events.put_targets, the
RESTART_EXECUTOR_ARN environment variable, and the current UTC time. -/
structure PlannerEnv where
  parseTime : String → Option Dt
  spring : Int → Dt × Dt
  taskLookup : String → String → String
  putRuleOk : Bool
  putTargetsOk : Bool
  executorArn : Option String
  nowClock : Clock

/-- One externally visible step of the Planner, in program order:
evaluating the blackout-overlap check, registering the one-shot rule,
attaching its target, and emitting a notification of the given kind. -/
inductive PAction where
  | conflictCheck
  | createRule (rule : String)
  | putTargets (rule : String)
  | notify (kind : String)
deriving DecidableEq

/-- The Planner response dict: statusCode and body. -/
structure PResp where
  statusCode : Nat
  body : String
deriving DecidableEq

/-- Embeds create_restart_schedule (lines 279-343) at the level of external
effects: the rule name is derived from the resource ARN and the epoch seconds
of the restart time; in test mode no external call is made; otherwise
put_rule is attempted (raising on failure), then the executor ARN is required
(a missing one raises ValueError), then put_targets is attempted. The
function re-raises every failure, modelled by the error branch carrying the
calls attempted so far. -/
def create_restart_schedule (env : PlannerEnv) (resource_arn : String)
    (restart_time : Clock) (test_mode : Bool) :
    Except (List PAction) (String × List PAction) :=
  let rule_name := rule_name_for resource_arn restart_time.epochSecs
  if test_mode then Except.ok (rule_name, [])
  else if env.putRuleOk then
    if truthy env.executorArn then
      if env.putTargetsOk then
        Except.ok (rule_name, [PAction.createRule rule_name, PAction.putTargets rule_name])
      else
        Except.error [PAction.createRule rule_name, PAction.putTargets rule_name]
    else Except.error [PAction.createRule rule_name]
  else Except.error [PAction.createRule rule_name]

/-- Embeds the affected-entities loop of the Planner handler (lines 62-85):
each entity whose value mentions ecs case-insensitively or contains a bar is
resolved; a non-sentinel identity updates resource_id and schedules a
restart. The boolean result records whether an exception escaped the loop
into the catch-all handler. -/
def processEntities (env : PlannerEnv) (test_mode : Bool) (restart_time : Clock) :
    List String → Option String → Option String × List PAction × Bool
  | [], rid => (rid, [], false)
  | e :: rest, rid =>
    if containsSub "ecs".toList (lowerChars e.toList) || e.toList.contains '|' then
      let cs := parse_ecs_resource_info env.taskLookup e
      if cs.1 ≠ "unknown-cluster" ∧ cs.2 ≠ "unknown-service" then
        let rid1 := some (cs.1 ++ "/" ++ cs.2)
        match create_restart_schedule env e restart_time test_mode with
        | Except.ok p =>
          let r := processEntities env test_mode restart_time rest rid1
          (r.1, p.2 ++ r.2.1, r.2.2)
        | Except.error acts => (rid1, acts, true)
      else processEntities env test_mode restart_time rest rid
    else processEntities env test_mode restart_time rest rid

/-- Embeds the Planner lambda_handler (lines 6-133). A missing or empty
startTime or endTime returns 200 No maintenance window found before anything
else happens. Otherwise both bounds are parsed after the Z to +00:00 rewrite
(a parse failure lands in the catch-all: error notification and 500); the
blackout check runs; no conflict yields an INFO notification and 200; a
conflict computes the restart time, processes the affected entities, and
emits the EARLY_RESTART notification, unless an exception escaped, in which
case the catch-all emits the error notification with 500. -/
def lambda_handler (event : PlannerEvent) (env : PlannerEnv) :
    PResp × List PAction :=
  if !(truthy event.startTime && truthy event.endTime) then
    (⟨200, "No maintenance window found"⟩, [])
  else
    let sts := String.mk (replaceChar 'Z' "+00:00".toList (event.startTime.getD "").toList)
    let ets := String.mk (replaceChar 'Z' "+00:00".toList (event.endTime.getD "").toList)
    match env.parseTime sts, env.parseTime ets with
    | some ms, some me =>
      let has_conflict := check_holiday_conflict ms me env.spring
      if !has_conflict then
        (⟨200, "No holiday conflict detected"⟩,
         [PAction.conflictCheck, PAction.notify "NO_ACTION_NEEDED"])
      else
        let restart_time := calculate_next_4am env.nowClock
        let r := processEntities env event.test_mode restart_time
          event.affectedEntities none
        if r.2.2 then
          (⟨500, "error"⟩, PAction.conflictCheck :: r.2.1 ++ [PAction.notify "ERROR"])
        else
          (⟨200, "processed"⟩,
           PAction.conflictCheck :: r.2.1 ++ [PAction.notify "EARLY_RESTART"])
    | _, _ => (⟨500, "error"⟩, [PAction.notify "ERROR"])

end smart_handler

/-!
Theorems settling the claims.
-/

open PyTime

/-- Claim C1: for every maintenance window and blackout catalogue, the
conflict check returns true iff some catalogue interval ib satisfies
window start at most ib end and window end at least ib start, with every
instant first made timezone-aware (the normalization of the source) and
compared as an absolute instant. -/
theorem C1_overlap_iff (ms me : Dt) (spring : Int → Dt × Dt) :
    smart_handler.check_holiday_conflict ms me spring = true ↔
      ∃ ib ∈ smart_handler.holiday_catalogue ms.year spring,
        toInstant (smart_handler.ensure_tzaware ms) ≤
            toInstant (smart_handler.ensure_tzaware ib.2) ∧
          toInstant (smart_handler.ensure_tzaware me) ≥
            toInstant (smart_handler.ensure_tzaware ib.1) := by
  simp [smart_handler.check_holiday_conflict, List.any_eq_true, ge_iff_le]

/-- Claim C2 (counterexample): the naive window Oct 8 2025 18:00-20:00 is
treated as UTC by the code and found conflict-free, whereas under the
UTC+8 assumption the claim states it lies inside the national-day blackout
and the check would return true. -/
theorem C2_counterexample :
    smart_handler.check_holiday_conflict ⟨2025, 10, 8, 18, 0, 0, none⟩
        ⟨2025, 10, 8, 20, 0, 0, none⟩
        smart_handler.get_default_spring_festival_dates = false ∧
      smart_handler.check_holiday_conflict_china ⟨2025, 10, 8, 18, 0, 0, none⟩
        ⟨2025, 10, 8, 20, 0, 0, none⟩
        smart_handler.get_default_spring_festival_dates = true := by
  decide

/-- Claim C2 (amended): instants lacking timezone information are not
uniformly assumed to be UTC+8: the conflict check attaches UTC (offset 0) to
naive maintenance-window and blackout bounds, while only the spring-festival
bounds parsed from the Parameter Store are assumed UTC+8 before conversion
to the common zone. -/
theorem C2_naive_zone_assumptions (d : Dt) (h : d.tz = none) :
    smart_handler.ensure_tzaware d = { d with tz := some 0 } ∧
      smart_handler.spring_store_normalize d =
        astimezone { d with tz := some smart_handler.chinaTz } 0 := by
  constructor
  · simp [smart_handler.ensure_tzaware, h]
  · simp [smart_handler.spring_store_normalize, h]

/-- Witness for C2_naive_zone_assumptions at a concrete naive datetime. -/
theorem C2_naive_zone_assumptions_witness :
    smart_handler.ensure_tzaware ⟨2026, 2, 17, 0, 0, 0, none⟩ =
        ⟨2026, 2, 17, 0, 0, 0, some 0⟩ ∧
      smart_handler.spring_store_normalize ⟨2026, 2, 17, 0, 0, 0, none⟩ =
        astimezone ⟨2026, 2, 17, 0, 0, 0, some smart_handler.chinaTz⟩ 0 :=
  C2_naive_zone_assumptions ⟨2026, 2, 17, 0, 0, 0, none⟩ rfl

/-- Claim C5: the restart-time calculator picks tomorrow 04:00 exactly when
the hour is at or past 4 or the hour is 3 with minute at least 50, today
04:00 otherwise, and in either case the result is at least the ten-minute
guard buffer ahead of now. -/
theorem C5_next_4am (now : smart_handler.Clock)
    (hh : now.hour < 24) (hm : now.minute < 60) (hs : now.second < 60)
    (hu : now.micro < 1000000) :
    smart_handler.calculate_next_4am now =
        (if 4 ≤ now.hour ∨ (now.hour = 3 ∧ 50 ≤ now.minute) then
          { day := now.day + 1, hour := 4, minute := 0, second := 0, micro := 0 }
        else
          { day := now.day, hour := 4, minute := 0, second := 0, micro := 0 }) ∧
      600000000 ≤ (smart_handler.calculate_next_4am now).micros - now.micros := by
  constructor
  · by_cases h : 4 ≤ now.hour ∨ (now.hour = 3 ∧ 50 ≤ now.minute) <;>
      simp [smart_handler.calculate_next_4am, h]
  · by_cases h : 4 ≤ now.hour ∨ (now.hour = 3 ∧ 50 ≤ now.minute) <;>
      simp only [smart_handler.calculate_next_4am, if_pos, if_neg, h, ite_true,
        ite_false, smart_handler.Clock.micros] <;>
      push_cast <;> omega

/-- Witness for C5_next_4am at the tightest guard boundary 03:49:59.999999. -/
theorem C5_next_4am_witness :
    smart_handler.calculate_next_4am ⟨0, 3, 49, 59, 999999⟩ =
        (if 4 ≤ 3 ∨ (3 = 3 ∧ 50 ≤ 49) then
          { day := 1, hour := 4, minute := 0, second := 0, micro := 0 }
        else
          { day := 0, hour := 4, minute := 0, second := 0, micro := 0 }) ∧
      600000000 ≤ (smart_handler.calculate_next_4am ⟨0, 3, 49, 59, 999999⟩).micros -
        smart_handler.Clock.micros ⟨0, 3, 49, 59, 999999⟩ := by
  exact C5_next_4am ⟨0, 3, 49, 59, 999999⟩ (by decide) (by decide) (by decide) (by decide)

/-- Claim C9: a Planner event whose detail lacks startTime or endTime yields
statusCode 200 with body No maintenance window found and an empty action
trace: the blackout check is not evaluated, no schedule is created and no
notification is emitted. -/
theorem C9_no_window (ev : smart_handler.PlannerEvent) (env : smart_handler.PlannerEnv)
    (h : ev.startTime = none ∨ ev.endTime = none) :
    smart_handler.lambda_handler ev env =
      (⟨200, "No maintenance window found"⟩, []) := by
  have hv : (truthy ev.startTime && truthy ev.endTime) = false := by
    rcases h with h | h <;> simp [truthy, h]
  simp [smart_handler.lambda_handler, hv]

/-- Witness for C9_no_window on a concrete event with endTime absent. -/
theorem C9_no_window_witness :
    smart_handler.lambda_handler
        ⟨some "2025-10-02T00:00:00Z", none, ["prod-cluster|checkout-svc"], false⟩
        ⟨fun _ => none, smart_handler.get_default_spring_festival_dates,
         fun _ _ => "unknown-service", true, true, none, ⟨0, 0, 0, 0, 0⟩⟩ =
      (⟨200, "No maintenance window found"⟩, []) :=
  C9_no_window _ _ (Or.inr rfl)

/-- Claim C8: an Executor event missing any of resource_id, cluster_name or
service_name takes the validation-failure path at once: the whole trace is
one FAILED notification (so no restart call is made) and the response is
500. -/
theorem C8_missing_required (ev : restart_executor.ExecEvent)
    (env : restart_executor.ExecEnv)
    (h : ev.resource_id = none ∨ ev.cluster_name = none ∨ ev.service_name = none) :
    restart_executor.lambda_handler ev env =
        (⟨500, none⟩, [restart_executor.EAction.notify "FAILED" ev.test_mode]) ∧
      ∀ c s, restart_executor.EAction.restartCall c s ∉
        (restart_executor.lambda_handler ev env).2 := by
  have hv : (truthy ev.resource_id && truthy ev.cluster_name &&
      truthy ev.service_name) = false := by
    rcases h with h | h | h <;> simp [truthy, h]
  constructor
  · simp [restart_executor.lambda_handler, hv]
  · intro c s
    simp [restart_executor.lambda_handler, hv]

/-- Witness for C8_missing_required: service_name absent. -/
theorem C8_missing_required_witness :
    (restart_executor.lambda_handler
          ⟨some "svc", some "prod", none, some "rule-1", none, false⟩ ⟨true, true, true⟩ =
        (⟨500, none⟩, [restart_executor.EAction.notify "FAILED" false])) ∧
      ∀ c s, restart_executor.EAction.restartCall c s ∉
        (restart_executor.lambda_handler
          ⟨some "svc", some "prod", none, some "rule-1", none, false⟩ ⟨true, true, true⟩).2 :=
  C8_missing_required _ _ (Or.inr (Or.inr rfl))

/-- Claim C10: an Executor event in which a required field is present but
empty behaves exactly like an absent field: validation failure, one FAILED
notification, no restart call, statusCode 500. -/
theorem C10_empty_required (ev : restart_executor.ExecEvent)
    (env : restart_executor.ExecEnv)
    (h : ev.resource_id = some "" ∨ ev.cluster_name = some "" ∨
      ev.service_name = some "") :
    restart_executor.lambda_handler ev env =
        (⟨500, none⟩, [restart_executor.EAction.notify "FAILED" ev.test_mode]) ∧
      ∀ c s, restart_executor.EAction.restartCall c s ∉
        (restart_executor.lambda_handler ev env).2 := by
  have hv : (truthy ev.resource_id && truthy ev.cluster_name &&
      truthy ev.service_name) = false := by
    rcases h with h | h | h <;> simp [truthy, h]
  constructor
  · simp [restart_executor.lambda_handler, hv]
  · intro c s
    simp [restart_executor.lambda_handler, hv]

/-- Witness for C10_empty_required: empty cluster_name. -/
theorem C10_empty_required_witness :
    (restart_executor.lambda_handler
          ⟨some "svc", some "", some "checkout-svc", none, none, false⟩ ⟨true, true, true⟩ =
        (⟨500, none⟩, [restart_executor.EAction.notify "FAILED" false])) ∧
      ∀ c s, restart_executor.EAction.restartCall c s ∉
        (restart_executor.lambda_handler
          ⟨some "svc", some "", some "checkout-svc", none, none, false⟩ ⟨true, true, true⟩).2 :=
  C10_empty_required _ _ (Or.inr (Or.inl rfl))

/-- Claim C3 (counterexample): invoking the Executor with test_mode true and
all required fields present emits exactly one notification, and its status is
SUCCESS, not the TEST_SUCCESS the claim states. -/
theorem C3_counterexample :
    (restart_executor.lambda_handler
          ⟨some "svc", some "prod-cluster", some "checkout-svc", some "rule-1", none, true⟩
          ⟨true, true, true⟩).2 =
        [restart_executor.EAction.notify "SUCCESS" true] ∧
      restart_executor.EAction.notify "TEST_SUCCESS" true ∉
        (restart_executor.lambda_handler
          ⟨some "svc", some "prod-cluster", some "checkout-svc", some "rule-1", none, true⟩
          ⟨true, true, true⟩).2 := by
  decide

/-- Claim C3 (amended): with test_mode true and all required fields present
the Executor makes no restart call and no schedule-delete call, returns 200
with the internal result status test_success, and emits exactly one outcome
notification, whose status field is SUCCESS (with the test flag set), since
the source maps the result statuses success and test_success alike to
SUCCESS. -/
theorem C3_test_mode (ev : restart_executor.ExecEvent)
    (env : restart_executor.ExecEnv)
    (h1 : truthy ev.resource_id = true) (h2 : truthy ev.cluster_name = true)
    (h3 : truthy ev.service_name = true) (ht : ev.test_mode = true) :
    restart_executor.lambda_handler ev env =
      (⟨200, some "test_success"⟩,
       [restart_executor.EAction.notify "SUCCESS" true]) := by
  simp [restart_executor.lambda_handler, h1, h2, h3, ht]

/-- Witness for C3_test_mode at a concrete fully populated test event. -/
theorem C3_test_mode_witness :
    restart_executor.lambda_handler
        ⟨some "svc", some "c1", some "s1", none, none, true⟩ ⟨false, false, false⟩ =
      (⟨200, some "test_success"⟩,
       [restart_executor.EAction.notify "SUCCESS" true]) :=
  C3_test_mode ⟨some "svc", some "c1", some "s1", none, none, true⟩
    ⟨false, false, false⟩ (by decide) (by decide) (by decide) rfl

/-- The notifications a cleanup attempt contributes: none, because
cleanup_rule swallows every failure and never notifies. -/
theorem notificationsOf_cleanup (env : restart_executor.ExecEnv) (r : String) :
    restart_executor.notificationsOf (restart_executor.cleanup_rule env r) = [] := by
  cases h : env.removeTargetsOk <;>
    simp [restart_executor.cleanup_rule, h, restart_executor.notificationsOf]

/-- Claim C4: a cleanup call (remove_targets or delete_rule) appears in the
trace only when the event carries a truthy rule identifier and only after the
restart call, which heads the trace; and with the restart outcome fixed, the
cleanup oracle (whether remove_targets or delete_rule succeed) changes
neither the notifications nor the response, so a swallowed cleanup failure
never alters the reported restart status. -/
theorem C4_cleanup_guarded (ev : restart_executor.ExecEvent)
    (env env' : restart_executor.ExecEnv)
    (hR : env.restartOk = env'.restartOk) :
    (∀ r : String,
        (restart_executor.EAction.removeTargets r ∈
            (restart_executor.lambda_handler ev env).2 ∨
          restart_executor.EAction.deleteRule r ∈
            (restart_executor.lambda_handler ev env).2) →
        truthy ev.rule_name = true ∧
          (restart_executor.lambda_handler ev env).2.head? =
            some (restart_executor.EAction.restartCall
              (ev.cluster_name.getD "") (ev.service_name.getD ""))) ∧
      restart_executor.notificationsOf (restart_executor.lambda_handler ev env).2 =
        restart_executor.notificationsOf (restart_executor.lambda_handler ev env').2 ∧
      (restart_executor.lambda_handler ev env).1 =
        (restart_executor.lambda_handler ev env').1 := by
  cases hv : (truthy ev.resource_id && truthy ev.cluster_name &&
      truthy ev.service_name)
  · simp [restart_executor.lambda_handler, hv, restart_executor.notificationsOf]
  · cases ht : ev.test_mode
    · cases hro : env.restartOk
      · have hro' : env'.restartOk = false := hR.symm.trans hro
        simp [restart_executor.lambda_handler, hv, ht, hro, hro',
          restart_executor.notificationsOf]
      · have hro' : env'.restartOk = true := hR.symm.trans hro
        cases hrn : truthy ev.rule_name
        · simp [restart_executor.lambda_handler, hv, ht, hro, hro', hrn,
            restart_executor.notificationsOf]
        · simp [restart_executor.lambda_handler, hv, ht, hro, hro', hrn,
            restart_executor.notificationsOf, restart_executor.cleanup_rule]
          cases h1 : env.removeTargetsOk <;> cases h2 : env'.removeTargetsOk <;>
            simp [h1, h2]
    · simp [restart_executor.lambda_handler, hv, ht,
        restart_executor.notificationsOf]

/-- Witness for C4_cleanup_guarded: same restart outcome, cleanup failing in
one environment and succeeding in the other. -/
theorem C4_cleanup_guarded_witness :
    (∀ r : String,
        (restart_executor.EAction.removeTargets r ∈
            (restart_executor.lambda_handler
              ⟨some "svc", some "c1", some "s1", some "rule-9", none, false⟩
              ⟨true, false, false⟩).2 ∨
          restart_executor.EAction.deleteRule r ∈
            (restart_executor.lambda_handler
              ⟨some "svc", some "c1", some "s1", some "rule-9", none, false⟩
              ⟨true, false, false⟩).2) →
        truthy (some "rule-9" : Option String) = true ∧
          (restart_executor.lambda_handler
              ⟨some "svc", some "c1", some "s1", some "rule-9", none, false⟩
              ⟨true, false, false⟩).2.head? =
            some (restart_executor.EAction.restartCall "c1" "s1")) ∧
      restart_executor.notificationsOf
          (restart_executor.lambda_handler
            ⟨some "svc", some "c1", some "s1", some "rule-9", none, false⟩
            ⟨true, false, false⟩).2 =
        restart_executor.notificationsOf
          (restart_executor.lambda_handler
            ⟨some "svc", some "c1", some "s1", some "rule-9", none, false⟩
            ⟨true, true, true⟩).2 ∧
      (restart_executor.lambda_handler
          ⟨some "svc", some "c1", some "s1", some "rule-9", none, false⟩
          ⟨true, false, false⟩).1 =
        (restart_executor.lambda_handler
          ⟨some "svc", some "c1", some "s1", some "rule-9", none, false⟩
          ⟨true, true, true⟩).1 :=
  C4_cleanup_guarded
    ⟨some "svc", some "c1", some "s1", some "rule-9", none, false⟩
    ⟨true, false, false⟩ ⟨true, true, true⟩ rfl

/-- The 16 digest bytes are produced by four 4-byte renderings. -/
theorem MD5.digest_length (msg : List Nat) : (MD5.digest msg).length = 16 := by
  simp [MD5.digest, MD5.w32le]

/-- Hex-rendering a byte list doubles its length. -/
theorem MD5.flatMap_byteHex_length (l : List Nat) :
    (l.flatMap MD5.byteHex).length = 2 * l.length := by
  induction l with
  | nil => simp
  | cons b t ih => simp [MD5.byteHex, ih]; omega

/-- An MD5 hex digest has 32 characters. -/
theorem MD5.hexChars_length (msg : List Nat) : (MD5.hexChars msg).length = 32 := by
  unfold MD5.hexChars
  rw [MD5.flatMap_byteHex_length, MD5.digest_length]

/-- Hex digit characters of values below 16 are lower-case hex characters. -/
theorem MD5.hexDigitChar_mem (n : Nat) (h : n < 16) :
    MD5.hexDigitChar n ∈ "0123456789abcdef".toList := by
  interval_cases n <;> decide

/-- Every character of an MD5 hex digest is a lower-case hex character. -/
theorem MD5.hexChars_mem (msg : List Nat) :
    ∀ c ∈ MD5.hexChars msg, c ∈ "0123456789abcdef".toList := by
  intro c hc
  simp only [MD5.hexChars, List.mem_flatMap] at hc
  obtain ⟨b, _, hb⟩ := hc
  simp only [MD5.byteHex, List.mem_cons, List.mem_singleton] at hb
  rcases hb with h | h | h
  · subst h; exact MD5.hexDigitChar_mem _ (Nat.mod_lt _ (by omega))
  · subst h; exact MD5.hexDigitChar_mem _ (Nat.mod_lt _ (by omega))
  · cases h

/-- A Nat below 10 ^ k renders in at most k decimal digit characters. -/
theorem natDigits_length_le (n : Nat) : ∀ k : Nat, n < 10 ^ k →
    (natDigits n).length ≤ k := by
  induction n using Nat.strong_induction_on with
  | _ n ih =>
    intro k hk
    by_cases h0 : n = 0
    · subst h0
      rw [natDigits]
      simp
    · rw [natDigits]
      simp only [h0, if_false, List.length_append, List.length_singleton]
      have hk1 : 1 ≤ k := by
        by_contra hh
        push_neg at hh
        interval_cases k
        simp at hk
        omega
      have hpow : 10 ^ k = 10 ^ (k - 1) * 10 := by
        rw [← pow_succ]
        congr 1
        omega
      have hdiv : n / 10 < 10 ^ (k - 1) :=
        (Nat.div_lt_iff_lt_mul (by omega)).mpr (by omega)
      have := ih (n / 10) (Nat.div_lt_self (Nat.pos_of_ne_zero h0) (by omega))
        (k - 1) hdiv
      omega

/-- The decimal rendering of an epoch-seconds value in the range Python
datetimes can produce (years 1 through 9999) takes at most 12 characters. -/
theorem intChars_length_le (t : Int) (hlo : -62135596800 ≤ t)
    (hhi : t ≤ 253402300799) : (intChars t).length ≤ 12 := by
  cases t with
  | ofNat m =>
    rw [Int.ofNat_eq_coe] at hhi
    have hm : m ≤ 253402300799 := by omega
    by_cases h0 : m = 0
    · subst h0; simp [intChars, natChars]
    · have : m < 10 ^ 12 := by norm_num; omega
      simpa [intChars, natChars, h0] using natDigits_length_le m 12 this
  | negSucc m =>
    rw [Int.negSucc_eq] at hlo
    have hm : m + 1 ≤ 62135596800 := by omega
    have hm' : m + 1 < 10 ^ 11 := by
      norm_num
      omega
    have hlen := natDigits_length_le (m + 1) 11 hm'
    simp [intChars, natChars]
    omega

/-- Claim C6: the schedule-request builder is deterministic in the pair of
raw resource identifier and fire time, the rule name it produces is the fixed
namespace tag ecs-restart- followed by an 8-character lower-case-hex fragment
of the MD5 digest of the identifier, a dash, and the decimal epoch seconds of
the fire time, and for every fire time a Python datetime can represent
(years 1 through 9999) the whole name is at most 64 characters long. -/
theorem C6_rule_name (raw1 raw2 : String) (t1 t2 : Int) (h1 : raw1 = raw2)
    (h2 : t1 = t2) (hlo : -62135596800 ≤ t1) (hhi : t1 ≤ 253402300799) :
    smart_handler.rule_name_for raw1 t1 = smart_handler.rule_name_for raw2 t2 ∧
      smart_handler.rule_name_for raw1 t1 =
        String.mk ("ecs-restart-".toList ++
          (MD5.hexChars (utf8Bytes raw1)).take 8 ++ ['-'] ++ intChars t1) ∧
      ((MD5.hexChars (utf8Bytes raw1)).take 8).length = 8 ∧
      (∀ c ∈ (MD5.hexChars (utf8Bytes raw1)).take 8,
        c ∈ "0123456789abcdef".toList) ∧
      (smart_handler.rule_name_for raw1 t1).length ≤ 64 := by
  subst h1
  subst h2
  have h8 : ((MD5.hexChars (utf8Bytes raw1)).take 8).length = 8 := by
    simp [List.length_take, MD5.hexChars_length]
  refine ⟨rfl, rfl, h8, ?_, ?_⟩
  · intro c hc
    exact MD5.hexChars_mem _ c (List.mem_of_mem_take hc)
  · have hi := intChars_length_le t1 hlo hhi
    have h12 : ("ecs-restart-".toList).length = 12 := by decide
    simp only [smart_handler.rule_name_for, smart_handler.rule_name_chars,
      String.length_mk, List.length_append, h8, h12, List.length_singleton]
    omega

/-- Witness for C6_rule_name at a concrete ARN and fire time. -/
theorem C6_rule_name_witness :
    smart_handler.rule_name_for
          "arn:aws:ecs:us-east-1:111:service/prod-cluster/checkout-svc" 1760000000 =
        smart_handler.rule_name_for
          "arn:aws:ecs:us-east-1:111:service/prod-cluster/checkout-svc" 1760000000 ∧
      smart_handler.rule_name_for
          "arn:aws:ecs:us-east-1:111:service/prod-cluster/checkout-svc" 1760000000 =
        String.mk ("ecs-restart-".toList ++
          (MD5.hexChars (utf8Bytes
            "arn:aws:ecs:us-east-1:111:service/prod-cluster/checkout-svc")).take 8 ++
          ['-'] ++ intChars 1760000000) ∧
      ((MD5.hexChars (utf8Bytes
        "arn:aws:ecs:us-east-1:111:service/prod-cluster/checkout-svc")).take 8).length = 8 ∧
      (∀ c ∈ (MD5.hexChars (utf8Bytes
          "arn:aws:ecs:us-east-1:111:service/prod-cluster/checkout-svc")).take 8,
        c ∈ "0123456789abcdef".toList) ∧
      (smart_handler.rule_name_for
        "arn:aws:ecs:us-east-1:111:service/prod-cluster/checkout-svc" 1760000000).length ≤ 64 :=
  C6_rule_name "arn:aws:ecs:us-east-1:111:service/prod-cluster/checkout-svc"
    "arn:aws:ecs:us-east-1:111:service/prod-cluster/checkout-svc"
    1760000000 1760000000 rfl rfl (by decide) (by decide)

/-- Claim C7: the resource-identity resolver is a total function into
cluster-service pairs, and on any input matching neither the structured
identifier shape nor the two-field pair shape it returns the sentinel pair. -/
theorem C7_unmatched_sentinel (lookup : String → String → String) (s : String)
    (h1 : ¬ smart_handler.matchesStructured s)
    (h2 : ¬ smart_handler.matchesPair s) :
    smart_handler.parse_ecs_resource_info lookup s =
      ("unknown-cluster", "unknown-service") := by
  simp only [smart_handler.parse_ecs_resource_info]
  by_cases ha : "arn:aws".toList.isPrefixOf s.toList = true
  · rw [if_pos ha]
    by_cases hp : 3 ≤ (splitOnChar '/' s.toList).length
    · have hc : (splitOnChar ':' s.toList).length ≤ 5 := by
        by_contra hcc
        push_neg at hcc
        exact h1 ⟨ha, hp, by omega⟩
      rw [if_pos hp, List.getElem?_eq_none hc]
    · rw [if_neg hp]
  · rw [if_neg ha]
    by_cases hb : s.toList.contains '|' = true
    · have hl : (splitOnChar '|' s.toList).length ≠ 2 := h2
      rw [if_pos hb, if_neg hl]
    · rw [if_neg hb]

/-- Witness for C7_unmatched_sentinel on an input matching neither shape. -/
theorem C7_unmatched_sentinel_witness :
    ¬ smart_handler.matchesStructured "i-0abcd1234ef" ∧
      ¬ smart_handler.matchesPair "i-0abcd1234ef" ∧
      smart_handler.parse_ecs_resource_info (fun _ _ => "unknown-service")
        "i-0abcd1234ef" = ("unknown-cluster", "unknown-service") :=
  ⟨by decide, by decide,
    C7_unmatched_sentinel (fun _ _ => "unknown-service") "i-0abcd1234ef"
      (by decide) (by decide)⟩
